import Mathlib

/-!
Shallow embedding of the session/connection lifecycle of the WebRTC console
component in src/client/components/App.jsx.

The component state (React useState/useRef fields) is modelled as an explicit
record `AppState`; observable side effects (network requests, data-channel
transmissions, handle construction and teardown, console errors) are emitted
as an explicit trace of `Action`s.  Nondeterministic environment inputs
(HTTP outcomes, microphone availability, generated UUIDs and timestamps,
channel ready state) are passed as explicit parameters, so every definition
is executable.  JavaScript `a || b` on possibly-absent string fields is
modelled by `jsOrDefault` on `Option String`, where `none` stands for an
absent or undefined field and `some ""` for the empty string (both falsy).
-/

namespace WebRTCApp

/-- A content part of a conversation item (type/text pair). -/
structure ContentPart where
  type : String
  text : String
deriving DecidableEq, Repr

/-- A conversation item as built in sendTextMessage. -/
structure Item where
  type : String
  role : String
  content : List ContentPart
deriving DecidableEq, Repr

/-- The session configuration carried by the initial session.update event. -/
structure SessionCfg where
  instructions : String
deriving DecidableEq, Repr

/-- A protocol event: a JSON object with a `type` discriminator, optional
`event_id` and `timestamp` fields, and optional payload fields. -/
structure Event where
  type : String
  event_id : Option String := none
  timestamp : Option String := none
  item : Option Item := none
  session : Option SessionCfg := none
deriving DecidableEq, Repr

/-- The data channel handle; `readyState` mirrors RTCDataChannel.readyState. -/
structure DataChan where
  readyState : String
deriving DecidableEq, Repr

/-- An RTP sender attached to the peer connection, as iterated by
`getSenders()` in stopSession; `track` is the attached track id, if any. -/
structure Sender where
  track : Option String
deriving DecidableEq, Repr

/-- The peer connection handle, carrying its senders. -/
structure PeerConn where
  senders : List Sender
deriving DecidableEq, Repr

/-- The playback audio element; `srcObject` is the bound remote stream id. -/
structure AudioElem where
  srcObject : Option String
deriving DecidableEq, Repr

/-- The component state: isSessionActive/events/dataChannel are useState
fields, peerConnection/audioElement are useRef fields. -/
structure AppState where
  isSessionActive : Bool
  events : List Event
  dataChannel : Option DataChan
  peerConnection : Option PeerConn
  audioElement : Option AudioElem
deriving DecidableEq, Repr

/-- Observable side effects of the lifecycle functions, in program order. -/
inductive Action where
  | fetchSessions (model : String) (voice : String)
  | constructPC
  | createAudio
  | addTrack
  | createDC (label : String)
  | fetchSdp (model : String) (auth : Option String) (body : String)
  | setRemote (sdp : String)
  | send (e : Event)
  | closeDC
  | stopTrack
  | closePC
  | removeAudio
  | logError (msg : String)
deriving DecidableEq, Repr

/-- The parsed body of the provisioning response: `client_secret` field. -/
structure ClientSecret where
  value : Option String
deriving DecidableEq, Repr

/-- The JSON body returned by the sessions endpoint, as consumed by the code
(`sessionData.client_secret?.value`). -/
structure SessionData where
  client_secret : Option ClientSecret
deriving DecidableEq, Repr

/-- Environment inputs consumed during one startSession invocation. -/
structure Env where
  sessionOk : Bool
  sessionData : SessionData
  micTrack : Option String
  offerSdp : String
  sdpOk : Bool
  answerSdp : String
  remoteOk : Bool
  dcState : String
deriving DecidableEq, Repr

/-- `const DEPLOYMENT = "process.env.DEPLOYMENT";` — note the quotes: this is
the literal string, not an environment read. -/
def DEPLOYMENT : String := "process.env.DEPLOYMENT"

/-- `const VOICE = "verse";` -/
def VOICE : String := "verse"

/-- JavaScript `v || d` on a possibly-absent string field, as used for
`event_id`/`timestamp` stamping: an absent (undefined) or empty (falsy)
value is replaced by the default, any other string is kept. -/
def jsOrDefault (v : Option String) (d : String) : Option String :=
  match v with
  | none => some d
  | some x => if x = "" then some d else some x

/-- The guard `dataChannel && dataChannel.readyState === "open"`. -/
def channelOpen (s : AppState) : Bool :=
  match s.dataChannel with
  | some dc => dc.readyState == "open"
  | none => false

/-- The body of `stopSession` (App.jsx lines 113-136) as seen by one
closure.  `dataChannel` is a useState constant, so a stopSession closure
tests and closes the channel value captured at ITS OWN render, passed here
as `dcView`; `peerConnection` and `audioElement` are refs and are always
read at their current value from the state.  When `dcView` is present the
closure closes that channel object and writes null into the dataChannel
state; when it is absent the channel state is left untouched.  Then every
sender track is stopped and the peer connection closed if present, the
audio element detached and removed if present, and the session marked
inactive. -/
def stopSessionWith (dcView : Option DataChan) (s : AppState) :
    AppState × List Action :=
  let p1 : AppState × List Action :=
    match dcView with
    | some _ => ({ s with dataChannel := none }, [Action.closeDC])
    | none => (s, [])
  let p2 : AppState × List Action :=
    match p1.1.peerConnection with
    | some pc =>
        ({ p1.1 with peerConnection := none },
         (pc.senders.filterMap (fun sd => sd.track.map (fun _ => Action.stopTrack)))
           ++ [Action.closePC])
    | none => (p1.1, [])
  let p3 : AppState × List Action :=
    match p2.1.audioElement with
    | some _ => ({ p2.1 with audioElement := none }, [Action.removeAudio])
    | none => (p2.1, [])
  ({ p3.1 with isSessionActive := false }, p1.2 ++ p2.2 ++ p3.2)

/-- `stopSession` invoked directly from the current render (the stop
button): the captured dataChannel binding agrees with the committed
state. -/
def stopSession (s : AppState) : AppState × List Action :=
  stopSessionWith s.dataChannel s

/-- The initial configuration event sent at the end of startSession
(App.jsx lines 98-103): a session.update carrying the instructions, with no
event_id and no timestamp. -/
def initEvent : Event :=
  { type := "session.update",
    session := some { instructions :=
      "You are a helpful AI assistant responding in natural, engaging language." } }

/-- The body of the `try` block of startSession (App.jsx lines 22-105).
Returns the state and trace reached, plus the error message when a step
threw.  Step order follows the source: provisioning fetch, ok-check,
credential extraction via optional chaining, peer-connection construction,
audio-element creation, best-effort microphone acquisition (failure caught
locally), data-channel creation, offer generation, signaling fetch,
ok-check, remote answer application, conditional initial config send. -/
def startSessionBody (env : Env) (s : AppState) :
    AppState × List Action × Option String :=
  let tr0 : List Action := [Action.fetchSessions DEPLOYMENT VOICE]
  if !env.sessionOk then
    (s, tr0, some "Failed to create session")
  else
    let ephemeralKey : Option String :=
      match env.sessionData.client_secret with
      | some cs => cs.value
      | none => none
    let pc : PeerConn := { senders := [] }
    let s1 := { s with peerConnection := some pc }
    let s2 := { s1 with audioElement := some { srcObject := none } }
    let micStep : AppState × List Action :=
      match env.micTrack with
      | some t =>
          ({ s2 with peerConnection := some { senders := [{ track := some t }] } },
           [Action.addTrack])
      | none => (s2, [Action.logError "Error accessing microphone:"])
    let dc : DataChan := { readyState := env.dcState }
    let s4 := { micStep.1 with dataChannel := some dc }
    let tr1 := tr0 ++ [Action.constructPC, Action.createAudio] ++ micStep.2
      ++ [Action.createDC "azure-oai-events"]
    let tr2 := tr1 ++ [Action.fetchSdp DEPLOYMENT ephemeralKey env.offerSdp]
    if !env.sdpOk then
      (s4, tr2, some "Failed to establish WebRTC connection")
    else
      let tr3 := tr2 ++ [Action.setRemote env.answerSdp]
      if !env.remoteOk then
        (s4, tr3, some "setRemoteDescription failed")
      else if dc.readyState = "open" then
        (s4, tr3 ++ [Action.send initEvent], none)
      else
        (s4, tr3, none)

/-- `startSession` (App.jsx lines 21-111): run the body; on any exception,
log it and invoke stopSession (the catch block).  The stopSession closure
invoked there was created in the same render as the running startSession,
so its dataChannel binding is the value at ENTRY to startSession — the
setDataChannel performed inside the body is not visible to it.  The refs
and the committed state, however, are current, so teardown acts on the
state reached at the throw point. -/
def startSession (env : Env) (s : AppState) : AppState × List Action :=
  match startSessionBody env s with
  | (s1, tr, none) => (s1, tr)
  | (s1, tr, some msg) =>
      let p := stopSessionWith s.dataChannel s1
      (p.1, tr ++ [Action.logError ("Session error: " ++ msg)] ++ p.2)

/-- `sendClientEvent` (App.jsx lines 138-149): if the channel is open, stamp
event_id and timestamp (JS `||`, so only when absent or falsy), transmit the
serialized message, and prepend it to the event log; otherwise log an error
and do nothing else (no throw, no queuing). `uuid` and `ts` are the values
of `crypto.randomUUID()` and `new Date().toLocaleTimeString()`. -/
def sendClientEvent (s : AppState) (message : Event) (uuid ts : String) :
    AppState × List Action :=
  if channelOpen s then
    let m : Event := { message with
      event_id := jsOrDefault message.event_id uuid,
      timestamp := jsOrDefault message.timestamp ts }
    ({ s with events := m :: s.events }, [Action.send m])
  else
    (s, [Action.logError "Failed to send message - data channel not ready"])

/-- `sendTextMessage` (App.jsx lines 151-167): wrap the text into a
conversation.item.create event and send it, then send a response.create. -/
def sendTextMessage (s : AppState) (message : String) (u1 t1 u2 t2 : String) :
    AppState × List Action :=
  let event : Event :=
    { type := "conversation.item.create",
      item := some
        { type := "message", role := "user",
          content := [{ type := "input_text", text := message }] } }
  let r1 := sendClientEvent s event u1 t1
  let r2 := sendClientEvent r1.1 { type := "response.create" } u2 t2
  (r2.1, r1.2 ++ r2.2)

/-- `handleMessage` (App.jsx lines 171-175): parse the inbound payload,
stamp a timestamp when absent (JS `||`), and prepend it to the log. -/
def handleMessage (s : AppState) (event : Event) (ts : String) : AppState :=
  { s with events :=
      { event with timestamp := jsOrDefault event.timestamp ts } :: s.events }

/-- `handleOpen` (App.jsx lines 177-180): mark active and reset the log. -/
def handleOpen (s : AppState) : AppState :=
  { s with isSessionActive := true, events := [] }

/-- `handleClose` (App.jsx lines 182-184): mark inactive. -/
def handleClose (s : AppState) : AppState :=
  { s with isSessionActive := false }

/-- The idle (pre-start) state: no handles, inactive. -/
def idleState : AppState :=
  { isSessionActive := false, events := [], dataChannel := none,
    peerConnection := none, audioElement := none }

/-! Helper lemmas. -/

lemma stopSession_closed (s : AppState) :
    (stopSession s).1 =
      { isSessionActive := false, events := s.events,
        dataChannel := none, peerConnection := none, audioElement := none } := by
  obtain ⟨a, ev, dcO, pcO, auO⟩ := s
  cases dcO <;> cases pcO <;> cases auO <;> rfl

lemma stopTracks_mem {l : List Sender} {a : Action}
    (h : a ∈ l.filterMap (fun sd => sd.track.map (fun _ => Action.stopTrack))) :
    a = Action.stopTrack := by
  rw [List.mem_filterMap] at h
  obtain ⟨sd, _, hsd⟩ := h
  cases htr : sd.track <;> rw [htr] at hsd <;> simp at hsd
  exact hsd.symm

lemma mem_stopSessionWith_trace {d : Option DataChan} {s : AppState} {a : Action}
    (ha : a ∈ (stopSessionWith d s).2) :
    a = Action.closeDC ∨ a = Action.stopTrack ∨ a = Action.closePC ∨
      a = Action.removeAudio := by
  obtain ⟨b, ev, dcO, pcO, auO⟩ := s
  cases d <;> cases pcO <;> cases auO <;> simp [stopSessionWith] at ha <;> tauto

lemma stopSessionWith_pc (d : Option DataChan) (s : AppState) :
    (stopSessionWith d s).1.peerConnection = none := by
  obtain ⟨b, ev, dcO, pcO, auO⟩ := s
  cases d <;> cases pcO <;> cases auO <;> rfl

lemma stopSessionWith_audio (d : Option DataChan) (s : AppState) :
    (stopSessionWith d s).1.audioElement = none := by
  obtain ⟨b, ev, dcO, pcO, auO⟩ := s
  cases d <;> cases pcO <;> cases auO <;> rfl

lemma stopSessionWith_active (d : Option DataChan) (s : AppState) :
    (stopSessionWith d s).1.isSessionActive = false := by
  obtain ⟨b, ev, dcO, pcO, auO⟩ := s
  cases d <;> cases pcO <;> cases auO <;> rfl

lemma stopSessionWith_events (d : Option DataChan) (s : AppState) :
    (stopSessionWith d s).1.events = s.events := by
  obtain ⟨b, ev, dcO, pcO, auO⟩ := s
  cases d <;> cases pcO <;> cases auO <;> rfl

lemma stopSessionWith_none_dc (s : AppState) :
    (stopSessionWith none s).1.dataChannel = s.dataChannel := by
  obtain ⟨b, ev, dcO, pcO, auO⟩ := s
  cases pcO <;> cases auO <;> rfl

lemma jsOrDefault_isSome (v : Option String) (d : String) :
    (jsOrDefault v d).isSome := by
  cases v with
  | none => rfl
  | some x => by_cases hx : x = "" <;> simp [jsOrDefault, hx]

lemma jsOrDefault_ne_empty {x : String} (hx : x ≠ "") (d : String) :
    jsOrDefault (some x) d = some x := by
  simp [jsOrDefault, hx]

lemma channelOpen_update_events (s : AppState) (l : List Event) :
    channelOpen { s with events := l } = channelOpen s := rfl

lemma sendClientEvent_open {s : AppState} (h : channelOpen s = true)
    (m : Event) (u t : String) :
    sendClientEvent s m u t =
      ({ s with events :=
          { m with
            event_id := jsOrDefault m.event_id u,
            timestamp := jsOrDefault m.timestamp t } :: s.events },
       [Action.send
          { m with
            event_id := jsOrDefault m.event_id u,
            timestamp := jsOrDefault m.timestamp t }]) := by
  simp [sendClientEvent, h]

/-! Concrete inputs used by witnesses and counterexamples. -/

/-- A state whose data channel exists and is open. -/
def openStateW : AppState :=
  { isSessionActive := true, events := [], dataChannel := some { readyState := "open" },
    peerConnection := none, audioElement := none }

/-- A state whose data channel exists but is still connecting. -/
def connectingStateW : AppState :=
  { isSessionActive := false, events := [],
    dataChannel := some { readyState := "connecting" },
    peerConnection := none, audioElement := none }

/-- An environment in which every step of startSession succeeds. -/
def envGood : Env :=
  { sessionOk := true,
    sessionData := { client_secret := some { value := some "ek-123" } },
    micTrack := some "mic", offerSdp := "OFF", sdpOk := true,
    answerSdp := "ANS", remoteOk := true, dcState := "open" }

/-- An environment in which provisioning succeeds but the signaling
request returns a non-success status. -/
def envSdpFail : Env := { envGood with sdpOk := false }

/-- An environment in which the provisioning request returns a
non-success HTTP status. -/
def envProvFail : Env := { envGood with sessionOk := false }

/-- An environment in which provisioning returns a success status but the
response body has no client_secret field. -/
def envMissingSecret : Env :=
  { envGood with sessionData := { client_secret := none } }

/-! Claim theorems. -/

/-- C6: for every state, after stopSession completes the Connection Handle,
the Channel Handle and the playback sink are all absent and session-active
is false. -/
theorem stopSession_clears_all (s : AppState) :
    (stopSession s).1.dataChannel = none ∧
    (stopSession s).1.peerConnection = none ∧
    (stopSession s).1.audioElement = none ∧
    (stopSession s).1.isSessionActive = false := by
  rw [stopSession_closed]
  exact ⟨rfl, rfl, rfl, rfl⟩

/-- C4: sending while the data channel is not open leaves the state (and in
particular the event log) unchanged, transmits nothing, and logs exactly an
operator-visible error; the function is total, so nothing is thrown. -/
theorem sendClientEvent_not_open (s : AppState) (m : Event) (u t : String)
    (h : channelOpen s = false) :
    (sendClientEvent s m u t).1 = s ∧
    (sendClientEvent s m u t).2 =
      [Action.logError "Failed to send message - data channel not ready"] ∧
    ∀ e, Action.send e ∉ (sendClientEvent s m u t).2 := by
  simp [sendClientEvent, h]

/-- C4 witness at a concrete connecting-state input. -/
theorem sendClientEvent_not_open_witness :
    (sendClientEvent connectingStateW { type := "ping" } "u1" "09:00:00").1 =
      connectingStateW ∧
    (sendClientEvent connectingStateW { type := "ping" } "u1" "09:00:00").2 =
      [Action.logError "Failed to send message - data channel not ready"] ∧
    ∀ e, Action.send e ∉
      (sendClientEvent connectingStateW { type := "ping" } "u1" "09:00:00").2 :=
  sendClientEvent_not_open connectingStateW { type := "ping" } "u1" "09:00:00"
    (by decide)

/-- C5: sending while the channel is open appends exactly one entry to the
front of the event log and transmits exactly one payload. -/
theorem sendClientEvent_open_one (s : AppState) (m : Event) (u t : String)
    (h : channelOpen s = true) :
    ∃ m', (sendClientEvent s m u t).1.events = m' :: s.events ∧
      (sendClientEvent s m u t).2 = [Action.send m'] := by
  rw [sendClientEvent_open h]
  exact ⟨_, rfl, rfl⟩

/-- C5 witness at a concrete open-state input. -/
theorem sendClientEvent_open_one_witness :
    ∃ m', (sendClientEvent openStateW { type := "ping" } "u1" "09:00:00").1.events =
        m' :: openStateW.events ∧
      (sendClientEvent openStateW { type := "ping" } "u1" "09:00:00").2 =
        [Action.send m'] :=
  sendClientEvent_open_one openStateW { type := "ping" } "u1" "09:00:00" (by decide)

/-- An outbound message that already carries an event_id, namely the empty
string. -/
def emptyIdMsg : Event := { type := "test", event_id := some "" }

/-- C3 counterexample: an outbound event that already carries an event_id
(the empty string) has that pre-existing value overwritten by the generated
identifier, because the stamping uses JavaScript truthiness. -/
theorem stamping_overwrites_empty_id :
    emptyIdMsg.event_id = some "" ∧
    (sendClientEvent openStateW emptyIdMsg "gen-id" "09:00:00").2 =
      [Action.send
        { type := "test", event_id := some "gen-id", timestamp := some "09:00:00" }] ∧
    (sendClientEvent openStateW emptyIdMsg "gen-id" "09:00:00").1.events =
      [{ type := "test", event_id := some "gen-id", timestamp := some "09:00:00" }] := by
  refine ⟨rfl, ?_, ?_⟩ <;> decide

/-- C3 amended: outbound events missing event_id or timestamp have them
injected before transmission, inbound events missing a timestamp have one
injected on arrival, and pre-existing NON-EMPTY field values are preserved;
a pre-existing empty-string (falsy) value is treated as absent and replaced. -/
theorem stamping_injects_and_preserves_nonempty :
    (∀ (s : AppState) (m : Event) (u t : String), channelOpen s = true →
      ∃ m', (sendClientEvent s m u t).2 = [Action.send m'] ∧
        (sendClientEvent s m u t).1.events = m' :: s.events ∧
        (m.event_id = none → m'.event_id = some u) ∧
        (∀ x, m.event_id = some x → x ≠ "" → m'.event_id = some x) ∧
        (m.timestamp = none → m'.timestamp = some t) ∧
        (∀ x, m.timestamp = some x → x ≠ "" → m'.timestamp = some x)) ∧
    (∀ (s : AppState) (e : Event) (t : String),
      ∃ e', (handleMessage s e t).events = e' :: s.events ∧
        (e.timestamp = none → e'.timestamp = some t) ∧
        (∀ x, e.timestamp = some x → x ≠ "" → e'.timestamp = some x)) := by
  constructor
  · intro s m u t h
    rw [sendClientEvent_open h]
    refine ⟨_, rfl, rfl, ?_, ?_, ?_, ?_⟩
    · intro hm
      simp [hm, jsOrDefault]
    · intro x hx hne
      simp [hx, jsOrDefault_ne_empty hne]
    · intro hm
      simp [hm, jsOrDefault]
    · intro x hx hne
      simp [hx, jsOrDefault_ne_empty hne]
  · intro s e t
    refine ⟨_, rfl, ?_, ?_⟩
    · intro he
      simp [he, jsOrDefault]
    · intro x hx hne
      simp [hx, jsOrDefault_ne_empty hne]

/-- C3 amended witness: concrete outbound send with a non-empty pre-set
timestamp and absent event_id, and a concrete inbound event without a
timestamp. -/
theorem stamping_injects_and_preserves_nonempty_witness :
    (∃ m', (sendClientEvent openStateW
        { type := "test", timestamp := some "08:00:00" } "gen-id" "09:00:00").2 =
          [Action.send m'] ∧
      (sendClientEvent openStateW
        { type := "test", timestamp := some "08:00:00" } "gen-id" "09:00:00").1.events =
          m' :: openStateW.events ∧
      (Event.event_id { type := "test", timestamp := some "08:00:00" } = none →
        m'.event_id = some "gen-id") ∧
      (∀ x, Event.event_id { type := "test", timestamp := some "08:00:00" } = some x →
        x ≠ "" → m'.event_id = some x) ∧
      (Event.timestamp { type := "test", timestamp := some "08:00:00" } = none →
        m'.timestamp = some "09:00:00") ∧
      (∀ x, Event.timestamp { type := "test", timestamp := some "08:00:00" } = some x →
        x ≠ "" → m'.timestamp = some x)) ∧
    (∃ e', (handleMessage idleState { type := "reply" } "09:01:00").events =
        e' :: idleState.events ∧
      (Event.timestamp { type := "reply" } = none → e'.timestamp = some "09:01:00") ∧
      (∀ x, Event.timestamp { type := "reply" } = some x → x ≠ "" →
        e'.timestamp = some x)) :=
  ⟨stamping_injects_and_preserves_nonempty.1 openStateW
      { type := "test", timestamp := some "08:00:00" } "gen-id" "09:00:00" (by decide),
    stamping_injects_and_preserves_nonempty.2 idleState { type := "reply" } "09:01:00"⟩

/-- C8: sendTextMessage with an open channel transmits exactly two payloads
in order: first a conversation.item.create event whose input_text content is
the literal message, then a response.create event. -/
theorem sendTextMessage_two_sends (s : AppState) (msg u1 t1 u2 t2 : String)
    (h : channelOpen s = true) :
    ∃ e1 e2, (sendTextMessage s msg u1 t1 u2 t2).2 =
        [Action.send e1, Action.send e2] ∧
      e1.type = "conversation.item.create" ∧
      e1.item = some
        { type := "message", role := "user",
          content := [{ type := "input_text", text := msg }] } ∧
      e2.type = "response.create" ∧
      e2.item = none := by
  simp only [sendTextMessage]
  rw [sendClientEvent_open h]
  rw [sendClientEvent_open (s := { s with events := _ :: s.events}) h]
  exact ⟨_, _, rfl, rfl, rfl, rfl, rfl⟩

/-- C8 witness: sendTextMessage at the literal text hello on an open
channel. -/
theorem sendTextMessage_two_sends_witness :
    ∃ e1 e2, (sendTextMessage openStateW "hello" "u1" "t1" "u2" "t2").2 =
        [Action.send e1, Action.send e2] ∧
      e1.type = "conversation.item.create" ∧
      e1.item = some
        { type := "message", role := "user",
          content := [{ type := "input_text", text := "hello" }] } ∧
      e2.type = "response.create" ∧
      e2.item = none :=
  sendTextMessage_two_sends openStateW "hello" "u1" "t1" "u2" "t2" (by decide)

/-- C9: the initial session.update event is transmitted raw at the end of a
fully successful startSession — with no event_id and no timestamp, and
without touching the event log — whereas every message sent through
sendClientEvent on an open channel is stamped with both fields and appended
to the log. -/
theorem initEvent_bypasses_send_contract :
    (∀ (env : Env) (s : AppState), env.sessionOk = true → env.sdpOk = true →
      env.remoteOk = true → env.dcState = "open" →
      Action.send initEvent ∈ (startSession env s).2 ∧
      (startSession env s).1.events = s.events) ∧
    initEvent.event_id = none ∧ initEvent.timestamp = none ∧
    (∀ (s : AppState) (m : Event) (u t : String), channelOpen s = true →
      ∃ m', (sendClientEvent s m u t).2 = [Action.send m'] ∧
        m'.event_id.isSome ∧ m'.timestamp.isSome ∧
        (sendClientEvent s m u t).1.events = m' :: s.events) := by
  refine ⟨?_, rfl, rfl, ?_⟩
  · intro env s h1 h2 h3 h4
    rcases hmt : env.micTrack with _ | tr <;>
      simp [startSession, startSessionBody, h1, h2, h3, h4, hmt]
  · intro s m u t h
    rw [sendClientEvent_open h]
    exact ⟨_, rfl, jsOrDefault_isSome _ _, jsOrDefault_isSome _ _, rfl⟩

/-- C9 witness: the fully successful environment with an open channel, and a
concrete stamped send. -/
theorem initEvent_bypasses_send_contract_witness :
    (Action.send initEvent ∈ (startSession envGood idleState).2 ∧
      (startSession envGood idleState).1.events = idleState.events) ∧
    (∃ m', (sendClientEvent openStateW { type := "ping" } "u9" "t9").2 =
        [Action.send m'] ∧
      m'.event_id.isSome ∧ m'.timestamp.isSome ∧
      (sendClientEvent openStateW { type := "ping" } "u9" "t9").1.events =
        m' :: openStateW.events) :=
  ⟨initEvent_bypasses_send_contract.1 envGood idleState rfl rfl rfl rfl,
    initEvent_bypasses_send_contract.2.2.2 openStateW { type := "ping" } "u9" "t9"
      (by decide)⟩

lemma no_fetchSessions_in_stopSessionWith {d : Option DataChan} {s : AppState}
    {m v : String} :
    Action.fetchSessions m v ∉ (stopSessionWith d s).2 := by
  intro hm
  rcases mem_stopSessionWith_trace hm with h | h | h | h <;> simp at h

lemma no_fetchSdp_in_stopSessionWith {d : Option DataChan} {s : AppState}
    {m : String} {k : Option String} {b : String} :
    Action.fetchSdp m k b ∉ (stopSessionWith d s).2 := by
  intro hm
  rcases mem_stopSessionWith_trace hm with h | h | h | h <;> simp at h

lemma no_constructPC_in_stopSessionWith {d : Option DataChan} {s : AppState} :
    Action.constructPC ∉ (stopSessionWith d s).2 := by
  intro hm
  rcases mem_stopSessionWith_trace hm with h | h | h | h <;> simp at h

/-- C2 counterexample: on a signaling failure during a start from the idle
state, the channel created by that very invocation is neither closed nor
cleared — the catch-path stopSession closure captured the render-time null
dataChannel binding — so an unclosed channel handle is retained as
partial-session state, even though the refs-held handles are torn down. -/
theorem startSession_error_retains_channel :
    (startSession envSdpFail idleState).1.dataChannel =
      some { readyState := "open" } ∧
    Action.closeDC ∉ (startSession envSdpFail idleState).2 ∧
    (startSession envSdpFail idleState).1.peerConnection = none ∧
    (startSession envSdpFail idleState).1.isSessionActive = false := by
  refine ⟨?_, ?_, ?_, ?_⟩ <;> decide

/-- C2 amended: whenever a step of startSession throws (provisioning
failure, signaling failure, or a failing remote-description application),
the catch invokes the render-time stopSession closure: the peer connection
is closed and discarded, any local track stopped, the playback sink
detached and discarded, and session-active becomes false, with the event
log untouched; but the closure reads the render-time dataChannel binding,
so on a start from a state without a channel the channel created during the
failing invocation is neither closed nor cleared and remains in component
state. -/
theorem startSession_error_teardown_except_channel (env : Env) (s : AppState)
    (h : env.sessionOk = false ∨ env.sdpOk = false ∨ env.remoteOk = false) :
    (startSession env s).1.peerConnection = none ∧
    (startSession env s).1.audioElement = none ∧
    (startSession env s).1.isSessionActive = false ∧
    (startSession env s).1.events = s.events ∧
    (env.sessionOk = true →
      Action.closePC ∈ (startSession env s).2 ∧
      Action.removeAudio ∈ (startSession env s).2 ∧
      (env.micTrack.isSome → Action.stopTrack ∈ (startSession env s).2) ∧
      (s.dataChannel = none →
        (startSession env s).1.dataChannel =
          some { readyState := env.dcState } ∧
        Action.closeDC ∉ (startSession env s).2)) := by
  cases hso : env.sessionOk with
  | false =>
      refine ⟨?_, ?_, ?_, ?_, by simp [hso]⟩ <;>
        simp [startSession, startSessionBody, hso, stopSessionWith_pc,
          stopSessionWith_audio, stopSessionWith_active, stopSessionWith_events]
  | true =>
      have hrest : env.sdpOk = false ∨ env.remoteOk = false := by
        rcases h with h | h | h
        · rw [hso] at h; exact absurd h (by simp)
        · exact Or.inl h
        · exact Or.inr h
      rcases hdc0 : s.dataChannel with _ | dc0 <;>
        rcases hmt : env.micTrack with _ | tr <;>
          rcases hrest with hf | hf <;>
            cases hsdp : env.sdpOk <;>
              simp_all [startSession, startSessionBody, stopSessionWith, hso, hmt]

/-- C2 amended witness: a signaling failure after successful provisioning,
from the idle state. -/
theorem startSession_error_teardown_except_channel_witness :
    (startSession envSdpFail idleState).1.peerConnection = none ∧
    (startSession envSdpFail idleState).1.audioElement = none ∧
    (startSession envSdpFail idleState).1.isSessionActive = false ∧
    (startSession envSdpFail idleState).1.events = idleState.events ∧
    (envSdpFail.sessionOk = true →
      Action.closePC ∈ (startSession envSdpFail idleState).2 ∧
      Action.removeAudio ∈ (startSession envSdpFail idleState).2 ∧
      (envSdpFail.micTrack.isSome →
        Action.stopTrack ∈ (startSession envSdpFail idleState).2) ∧
      (idleState.dataChannel = none →
        (startSession envSdpFail idleState).1.dataChannel =
          some { readyState := envSdpFail.dcState } ∧
        Action.closeDC ∉ (startSession envSdpFail idleState).2)) :=
  startSession_error_teardown_except_channel envSdpFail idleState
    (Or.inr (Or.inl rfl))

/-- C7: when the provisioning call returns a non-success status and the
component is in the pre-start state, startSession constructs no peer
connection and leaves the state unchanged (session-active stays false). -/
theorem provisioning_failure_no_connection (env : Env) (s : AppState)
    (hok : env.sessionOk = false)
    (h1 : s.dataChannel = none) (h2 : s.peerConnection = none)
    (h3 : s.audioElement = none) (h4 : s.isSessionActive = false) :
    Action.constructPC ∉ (startSession env s).2 ∧ (startSession env s).1 = s := by
  obtain ⟨a, ev, dcO, pcO, auO⟩ := s
  simp only [AppState.dataChannel] at h1
  simp only [AppState.peerConnection] at h2
  simp only [AppState.audioElement] at h3
  simp only [AppState.isSessionActive] at h4
  subst h1
  subst h2
  subst h3
  subst h4
  simp [startSession, startSessionBody, stopSessionWith, hok]

/-- C7 witness: a provisioning failure from the idle state. -/
theorem provisioning_failure_no_connection_witness :
    Action.constructPC ∉ (startSession envProvFail idleState).2 ∧
    (startSession envProvFail idleState).1 = idleState :=
  provisioning_failure_no_connection envProvFail idleState rfl rfl rfl rfl rfl

/-- C1 counterexample: with a success HTTP status but a body lacking
client_secret, startSession does NOT abort: it constructs a peer connection,
completes the flow, and logs no error at all. -/
theorem missing_secret_still_connects :
    envMissingSecret.sessionData.client_secret = none ∧
    Action.constructPC ∈ (startSession envMissingSecret idleState).2 ∧
    (startSession envMissingSecret idleState).1.peerConnection =
      some { senders := [{ track := some "mic" }] } ∧
    ((startSession envMissingSecret idleState).2.countP
      (fun a => match a with | Action.logError _ => true | _ => false)) = 0 := by
  refine ⟨rfl, ?_, ?_, ?_⟩ <;> decide

/-- C1 amended: a non-success HTTP status from the provisioning call aborts
startSession with an error before any connection is constructed; but a
success response whose body lacks client_secret.value does not abort — the
flow proceeds to construct a connection and issues the signaling request
with an absent credential. -/
theorem provisioning_status_vs_missing_secret (env : Env) (s : AppState) :
    (env.sessionOk = false →
      Action.constructPC ∉ (startSession env s).2 ∧
      Action.logError "Session error: Failed to create session" ∈
        (startSession env s).2 ∧
      (startSession env s).1.peerConnection = none) ∧
    (env.sessionOk = true → env.sessionData.client_secret = none →
      Action.constructPC ∈ (startSession env s).2 ∧
      Action.fetchSdp DEPLOYMENT none env.offerSdp ∈ (startSession env s).2) := by
  constructor
  · intro hok
    refine ⟨?_, ?_, ?_⟩
    · intro hmem
      simp [startSession, startSessionBody, hok] at hmem
      exact absurd hmem no_constructPC_in_stopSessionWith
    · simp [startSession, startSessionBody, hok]
    · simp [startSession, startSessionBody, hok, stopSessionWith_pc]
  · intro hok hcs
    rcases hmt : env.micTrack with _ | tr <;>
      cases hsdp : env.sdpOk <;>
        cases hro : env.remoteOk <;>
          by_cases hdc : env.dcState = "open" <;>
            simp [startSession, startSessionBody, stopSessionWith, hok, hcs, hmt,
              hsdp, hro, hdc]

/-- C1 amended witness: a failing provisioning status on one side, and a
success status with a missing credential field on the other. -/
theorem provisioning_status_vs_missing_secret_witness :
    (Action.constructPC ∉ (startSession envProvFail openStateW).2 ∧
      Action.logError "Session error: Failed to create session" ∈
        (startSession envProvFail openStateW).2 ∧
      (startSession envProvFail openStateW).1.peerConnection = none) ∧
    (Action.constructPC ∈ (startSession envMissingSecret idleState).2 ∧
      Action.fetchSdp DEPLOYMENT none envMissingSecret.offerSdp ∈
        (startSession envMissingSecret idleState).2) :=
  ⟨(provisioning_status_vs_missing_secret envProvFail openStateW).1 rfl,
    (provisioning_status_vs_missing_secret envMissingSecret idleState).2 rfl rfl⟩

/-- C10: in every startSession trace, the model identifier carried by the
provisioning request and by the signaling request is in both cases the fixed
literal string process.env.DEPLOYMENT (a quoted constant, not a value read
from the environment), and a provisioning request with exactly that model is
always issued. -/
theorem model_identifier_is_quoted_literal (env : Env) (s : AppState) :
    (∀ m v, Action.fetchSessions m v ∈ (startSession env s).2 →
      m = "process.env.DEPLOYMENT") ∧
    (∀ m k b, Action.fetchSdp m k b ∈ (startSession env s).2 →
      m = "process.env.DEPLOYMENT") ∧
    Action.fetchSessions DEPLOYMENT VOICE ∈ (startSession env s).2 ∧
    DEPLOYMENT = "process.env.DEPLOYMENT" := by
  refine ⟨?_, ?_, ?_, rfl⟩
  · intro m v hm
    cases hso : env.sessionOk <;>
      rcases hmt : env.micTrack with _ | tr <;>
        cases hsdp : env.sdpOk <;>
          cases hro : env.remoteOk <;>
            by_cases hdc : env.dcState = "open" <;>
              simp [startSession, startSessionBody, DEPLOYMENT, VOICE, hso, hmt,
                hsdp, hro, hdc, no_fetchSessions_in_stopSessionWith] at hm <;>
                tauto
  · intro m k b hm
    cases hso : env.sessionOk <;>
      rcases hmt : env.micTrack with _ | tr <;>
        cases hsdp : env.sdpOk <;>
          cases hro : env.remoteOk <;>
            by_cases hdc : env.dcState = "open" <;>
              simp [startSession, startSessionBody, DEPLOYMENT, VOICE, hso, hmt,
                hsdp, hro, hdc, no_fetchSdp_in_stopSessionWith] at hm <;>
                tauto
  · cases hso : env.sessionOk <;>
      rcases hmt : env.micTrack with _ | tr <;>
        cases hsdp : env.sdpOk <;>
          cases hro : env.remoteOk <;>
            by_cases hdc : env.dcState = "open" <;>
              simp [startSession, startSessionBody, hso, hmt, hsdp, hro, hdc]

/-- C10 witness: the fully successful environment from the idle state, with
the membership hypotheses discharged on the concrete trace. -/
theorem model_identifier_is_quoted_literal_witness :
    Action.fetchSessions DEPLOYMENT VOICE ∈ (startSession envGood idleState).2 ∧
    DEPLOYMENT = "process.env.DEPLOYMENT" ∧
    "process.env.DEPLOYMENT" = "process.env.DEPLOYMENT" ∧
    "process.env.DEPLOYMENT" = "process.env.DEPLOYMENT" :=
  ⟨(model_identifier_is_quoted_literal envGood idleState).2.2.1,
    (model_identifier_is_quoted_literal envGood idleState).2.2.2,
    (model_identifier_is_quoted_literal envGood idleState).1
      "process.env.DEPLOYMENT" "verse" (by decide),
    (model_identifier_is_quoted_literal envGood idleState).2.1
      "process.env.DEPLOYMENT" (some "ek-123") "OFF" (by decide)⟩

end WebRTCApp
